import Mathlib

/-
Verification of `airflow/decorators/python.py`: the function-to-task adapter
consisting of the `_PythonDecoratedOperator` class, the `PythonDecoratorMixin`
entry points and the free function `python_task`.

Modelling choices:
  * A Python keyword bag (`**kwargs`) is an association list from key names to
    values of an arbitrary type `V`; keys are unique in a Python call, and
    lookup takes the first match.
  * `kwargs["k"]` on a missing key raises `KeyError`; the spec calls this the
    `MissingArgumentError` kind, modelled by the `PyError` type.
  * `_PythonDecoratedOperator.__init__` is modelled as a function from the
    keyword bag to an `Except` result paired with the list of effects the body
    performs, in order.  The only effects the event vocabulary admits are
    delegating to the base node-construction routine (`super().__init__`) and
    invoking the wrapped callable; the body of `__init__` in the source only
    ever emits the former.
  * `task_decorator_factory` is an external collaborator; a call to it is
    modelled by the record of arguments it receives (`TaskDecoratorFactoryCall`),
    and each entry point is modelled as the list of such calls it performs.
-/

namespace Airflow

variable {V : Type}

/-- Keyword bag: the `**kwargs` of a Python call, as an association list. -/
abbrev KwBag (V : Type) := List (String × V)

/-- First-match lookup in a keyword bag, modelling `kwargs["k"]` when it
succeeds and `"k" in kwargs` when tested against `none`. -/
def lookupKey (m : KwBag V) (k : String) : Option V :=
  match m with
  | [] => none
  | (k', v) :: rest => if k' = k then some v else lookupKey rest k

/-- Error taxonomy of the adapter: `KeyError` on a missing required key,
which the spec names the `MissingArgumentError` kind. -/
inductive PyError where
  | MissingArgumentError (key : String)
deriving DecidableEq, Repr

/-- Arguments of the single `super().__init__` delegation performed by
`_PythonDecoratedOperator.__init__`: the `kwargs_to_upstream` bundle and the
forwarded keyword bag (`**kwargs`). -/
structure SuperInitCall (V : Type) where
  kwargs_to_upstream : KwBag V
  kwargs : KwBag V
deriving DecidableEq

/-- Effects the adapter construction step can perform, in the order
performed: delegating to the base node-construction routine, or invoking the
wrapped callable. -/
inductive InitEvent (V : Type) where
  | superInit (call : SuperInitCall V)
  | invokeCallable (f : V)
deriving DecidableEq

/-- Tests whether an effect is the delegation to the base construction
routine. -/
def InitEvent.isSuperInit : InitEvent V → Bool
  | .superInit _ => true
  | .invokeCallable _ => false

/-- Embedding of the body of `_PythonDecoratedOperator.__init__`: read
`python_callable`, `op_args` and `op_kwargs` from the keyword bag (in the
order the dict literal evaluates them, raising on the first missing one),
assemble the `kwargs_to_upstream` bundle from exactly those three values, and
delegate once to `super().__init__` with the bundle and the full original
keyword bag. -/
def _PythonDecoratedOperator.init (kwargs : KwBag V) :
    Except PyError (SuperInitCall V) × List (InitEvent V) :=
  match lookupKey kwargs "python_callable" with
  | none => (.error (.MissingArgumentError "python_callable"), [])
  | some pc =>
    match lookupKey kwargs "op_args" with
    | none => (.error (.MissingArgumentError "op_args"), [])
    | some oa =>
      match lookupKey kwargs "op_kwargs" with
      | none => (.error (.MissingArgumentError "op_kwargs"), [])
      | some ok =>
        let kwargs_to_upstream : KwBag V :=
          [("python_callable", pc), ("op_args", oa), ("op_kwargs", ok)]
        let call : SuperInitCall V := ⟨kwargs_to_upstream, kwargs⟩
        (.ok call, [.superInit call])

/-- Class-level declaration `template_fields` of `_PythonDecoratedOperator`. -/
def _PythonDecoratedOperator.template_fields : List String :=
  ["op_args", "op_kwargs"]

/-- Class-level declaration `template_fields_renderers` of
`_PythonDecoratedOperator` ("py" is the python-code rendering tag). -/
def _PythonDecoratedOperator.template_fields_renderers : List (String × String) :=
  [("op_args", "py"), ("op_kwargs", "py")]

/-- Class-level declaration `shallow_copy_attrs` of
`_PythonDecoratedOperator`. -/
def _PythonDecoratedOperator.shallow_copy_attrs : List String :=
  ["python_callable"]

/-- A constructed `_PythonDecoratedOperator` node: the three metadata
declarations it reports (Python attribute lookup falls back to the class
attributes, which `__init__` never assigns on the instance) together with the
arguments of the delegation to the base construction routine. -/
structure TaskNode (V : Type) where
  template_fields : List String
  template_fields_renderers : List (String × String)
  shallow_copy_attrs : List String
  superCall : SuperInitCall V
deriving DecidableEq

/-- Construction of a `_PythonDecoratedOperator` node from a keyword bag:
runs `__init__` and, on success, yields the node, whose reported metadata
declarations are the class-level ones. -/
def _PythonDecoratedOperator.construct (kwargs : KwBag V) :
    Except PyError (TaskNode V) × List (InitEvent V) :=
  match _PythonDecoratedOperator.init kwargs with
  | (.ok call, tr) =>
    (.ok { template_fields := _PythonDecoratedOperator.template_fields
           template_fields_renderers := _PythonDecoratedOperator.template_fields_renderers
           shallow_copy_attrs := _PythonDecoratedOperator.shallow_copy_attrs
           superCall := call }, tr)
  | (.error e, tr) => (.error e, tr)

/-- Descriptor of the decorated-operator class passed to
`task_decorator_factory`. -/
inductive OperatorClassDescriptor where
  | pythonDecoratedOperator
deriving DecidableEq, Repr

/-- One call to the external `task_decorator_factory` routine: the arguments
the Factory Dispatch receives. -/
structure TaskDecoratorFactoryCall (V : Type) where
  python_callable : Option V
  multiple_outputs : Option Bool
  decorated_operator_class : OperatorClassDescriptor
  kwargs : KwBag V
deriving DecidableEq

/-- Embedding of the free function `python_task`: the list of
`task_decorator_factory` calls it performs.  The body is a single `return
task_decorator_factory(python_callable=..., multiple_outputs=...,
decorated_operator_class=_PythonDecoratedOperator, **kwargs)`. -/
def python_task (python_callable : Option V) (multiple_outputs : Option Bool)
    (kwargs : KwBag V) : List (TaskDecoratorFactoryCall V) :=
  [{ python_callable := python_callable
     multiple_outputs := multiple_outputs
     decorated_operator_class := .pythonDecoratedOperator
     kwargs := kwargs }]

/-- Declared default of the `multiple_outputs` parameter of `python_task`
(`None` in the source). -/
def python_task_default_multiple_outputs : Option Bool := none

/-- Embedding of the method `PythonDecoratorMixin.python`: its body is the
same single `task_decorator_factory` call as `python_task`. -/
def PythonDecoratorMixin.python (python_callable : Option V)
    (multiple_outputs : Option Bool) (kwargs : KwBag V) :
    List (TaskDecoratorFactoryCall V) :=
  [{ python_callable := python_callable
     multiple_outputs := multiple_outputs
     decorated_operator_class := .pythonDecoratedOperator
     kwargs := kwargs }]

/-- Declared default of the `multiple_outputs` parameter of
`PythonDecoratorMixin.python` (`None` in the source). -/
def PythonDecoratorMixin.python_default_multiple_outputs : Option Bool := none

/-- Embedding of `PythonDecoratorMixin.__call__`: its body forwards its
arguments to `self.python`. -/
def PythonDecoratorMixin.call (python_callable : Option V)
    (multiple_outputs : Option Bool) (kwargs : KwBag V) :
    List (TaskDecoratorFactoryCall V) :=
  PythonDecoratorMixin.python python_callable multiple_outputs kwargs

/-- Declared default of the `multiple_outputs` parameter of
`PythonDecoratorMixin.__call__` (`None` in the source). -/
def PythonDecoratorMixin.call_default_multiple_outputs : Option Bool := none

/-- Decidable equality of `Except` results, used to evaluate the embedding on
concrete inputs. -/
instance instDecidableEqExcept {e a : Type} [DecidableEq e] [DecidableEq a] :
    DecidableEq (Except e a) := fun x y =>
  match x, y with
  | .ok v, .ok w =>
    if h : v = w then .isTrue (by rw [h])
    else .isFalse (by intro hh; cases hh; exact h rfl)
  | .error v, .error w =>
    if h : v = w then .isTrue (by rw [h])
    else .isFalse (by intro hh; cases hh; exact h rfl)
  | .ok _, .error _ => .isFalse (by intro hh; cases hh)
  | .error _, .ok _ => .isFalse (by intro hh; cases hh)


/-- Claim C1: for each of the three keys `python_callable`, `op_args`,
`op_kwargs`, constructing a `_PythonDecoratedOperator` from a keyword bag in
which that key is absent raises an error of the `MissingArgumentError` kind,
and `super().__init__` is not invoked (the effect trace is empty). -/
theorem construct_missing_required_key_raises {V : Type} (kwargs : KwBag V)
    (h : lookupKey kwargs "python_callable" = none ∨
      lookupKey kwargs "op_args" = none ∨ lookupKey kwargs "op_kwargs" = none) :
    (∃ k, (_PythonDecoratedOperator.construct kwargs).1 =
        .error (PyError.MissingArgumentError k)) ∧
      (_PythonDecoratedOperator.construct kwargs).2 = [] := by
  cases h1 : lookupKey kwargs "python_callable" with
  | none =>
    simp [_PythonDecoratedOperator.construct, _PythonDecoratedOperator.init, h1]
  | some pc =>
    cases h2 : lookupKey kwargs "op_args" with
    | none =>
      simp [_PythonDecoratedOperator.construct, _PythonDecoratedOperator.init, h1, h2]
    | some oa =>
      cases h3 : lookupKey kwargs "op_kwargs" with
      | none =>
        simp [_PythonDecoratedOperator.construct, _PythonDecoratedOperator.init, h1, h2, h3]
      | some ok =>
        rcases h with h | h | h <;> simp_all

/-- Witness for C1: each of the three keys omitted independently from an
otherwise complete bag triggers the error and an empty effect trace. -/
theorem construct_missing_required_key_raises_witness :
    ((∃ k, (_PythonDecoratedOperator.construct
        [("op_args", (1 : Nat)), ("op_kwargs", 2)]).1 =
          .error (PyError.MissingArgumentError k)) ∧
      (_PythonDecoratedOperator.construct
        [("op_args", (1 : Nat)), ("op_kwargs", 2)]).2 = []) ∧
    ((∃ k, (_PythonDecoratedOperator.construct
        [("python_callable", (0 : Nat)), ("op_kwargs", 2)]).1 =
          .error (PyError.MissingArgumentError k)) ∧
      (_PythonDecoratedOperator.construct
        [("python_callable", (0 : Nat)), ("op_kwargs", 2)]).2 = []) ∧
    ((∃ k, (_PythonDecoratedOperator.construct
        [("python_callable", (0 : Nat)), ("op_args", 1)]).1 =
          .error (PyError.MissingArgumentError k)) ∧
      (_PythonDecoratedOperator.construct
        [("python_callable", (0 : Nat)), ("op_args", 1)]).2 = []) :=
  ⟨construct_missing_required_key_raises _ (Or.inl (by decide)),
   construct_missing_required_key_raises _ (Or.inr (Or.inl (by decide))),
   construct_missing_required_key_raises _ (Or.inr (Or.inr (by decide)))⟩

/-- Claim C2: the free function `python_task`, the method
`PythonDecoratorMixin.python`, and the alias `PythonDecoratorMixin.__call__`
each perform exactly one `task_decorator_factory` call, with identical
arguments (same callable, same `multiple_outputs`, the fixed descriptor
`_PythonDecoratedOperator`, the same extra configuration). -/
theorem entry_points_equivalent {V : Type} (pc : Option V) (mo : Option Bool)
    (kwargs : KwBag V) :
    python_task pc mo kwargs = PythonDecoratorMixin.python pc mo kwargs ∧
    PythonDecoratorMixin.call pc mo kwargs = PythonDecoratorMixin.python pc mo kwargs ∧
    python_task pc mo kwargs =
      [{ python_callable := pc
         multiple_outputs := mo
         decorated_operator_class := .pythonDecoratedOperator
         kwargs := kwargs }] ∧
    (python_task pc mo kwargs).length = 1 :=
  ⟨rfl, rfl, rfl, rfl⟩

/-- Claim C3: with all three required keys present, construction delegates to
the base routine with the `kwargs_to_upstream` bundle holding exactly the
three values unmodified, and with the full supplied keyword bag. -/
theorem construct_builds_bundle_and_forwards {V : Type} (kwargs : KwBag V)
    (pc oa ok : V)
    (h1 : lookupKey kwargs "python_callable" = some pc)
    (h2 : lookupKey kwargs "op_args" = some oa)
    (h3 : lookupKey kwargs "op_kwargs" = some ok) :
    ∃ n : TaskNode V, (_PythonDecoratedOperator.construct kwargs).1 = .ok n ∧
      n.superCall.kwargs_to_upstream =
        [("python_callable", pc), ("op_args", oa), ("op_kwargs", ok)] ∧
      n.superCall.kwargs = kwargs := by
  simp [_PythonDecoratedOperator.construct, _PythonDecoratedOperator.init, h1, h2, h3]

/-- Witness for C3: a concrete bag with one extra configuration key. -/
theorem construct_builds_bundle_and_forwards_witness :
    lookupKey [("python_callable", (7 : Nat)), ("op_args", 8), ("op_kwargs", 9),
        ("task_id", 3)] "python_callable" = some 7 ∧
    (∃ n : TaskNode Nat,
      (_PythonDecoratedOperator.construct
        [("python_callable", (7 : Nat)), ("op_args", 8), ("op_kwargs", 9),
          ("task_id", 3)]).1 = .ok n ∧
      n.superCall.kwargs_to_upstream =
        [("python_callable", 7), ("op_args", 8), ("op_kwargs", 9)] ∧
      n.superCall.kwargs =
        [("python_callable", 7), ("op_args", 8), ("op_kwargs", 9), ("task_id", 3)]) :=
  ⟨by decide,
   construct_builds_bundle_and_forwards _ 7 8 9 (by decide) (by decide) (by decide)⟩

/-- Claim C4: `template_fields` names exactly `op_args` and `op_kwargs` in
that order, and `template_fields_renderers` assigns the python-code tag `py`
to exactly those two fields and no others. -/
theorem template_fields_declaration :
    _PythonDecoratedOperator.template_fields = ["op_args", "op_kwargs"] ∧
    _PythonDecoratedOperator.template_fields_renderers =
      [("op_args", "py"), ("op_kwargs", "py")] ∧
    ∀ f : String,
      lookupKey _PythonDecoratedOperator.template_fields_renderers f = some "py" ↔
        f = "op_args" ∨ f = "op_kwargs" := by
  refine ⟨rfl, rfl, fun f => ?_⟩
  by_cases h1 : f = "op_args" <;> by_cases h2 : f = "op_kwargs" <;>
    simp [lookupKey, _PythonDecoratedOperator.template_fields_renderers, h1, h2, eq_comm]

/-- Claim C5: `shallow_copy_attrs` contains exactly the one attribute name
`python_callable`, and contains neither `op_args` nor `op_kwargs`. -/
theorem shallow_copy_declaration :
    _PythonDecoratedOperator.shallow_copy_attrs = ["python_callable"] ∧
    _PythonDecoratedOperator.shallow_copy_attrs.contains "op_args" = false ∧
    _PythonDecoratedOperator.shallow_copy_attrs.contains "op_kwargs" = false := by
  decide

/-- Claim C6: every entry point forwards the supplied callable, the supplied
`multiple_outputs` value, and the supplied extra configuration unmodified to
the Factory Dispatch, always paired with the fixed descriptor
`_PythonDecoratedOperator`. -/
theorem entry_points_pass_arguments_unmodified {V : Type} (pc : Option V)
    (mo : Option Bool) (kwargs : KwBag V) :
    ((python_task pc mo kwargs).map TaskDecoratorFactoryCall.python_callable = [pc] ∧
     (python_task pc mo kwargs).map TaskDecoratorFactoryCall.multiple_outputs = [mo] ∧
     (python_task pc mo kwargs).map TaskDecoratorFactoryCall.decorated_operator_class =
       [.pythonDecoratedOperator] ∧
     (python_task pc mo kwargs).map TaskDecoratorFactoryCall.kwargs = [kwargs]) ∧
    ((PythonDecoratorMixin.python pc mo kwargs).map
        TaskDecoratorFactoryCall.python_callable = [pc] ∧
     (PythonDecoratorMixin.python pc mo kwargs).map
        TaskDecoratorFactoryCall.multiple_outputs = [mo] ∧
     (PythonDecoratorMixin.python pc mo kwargs).map
        TaskDecoratorFactoryCall.decorated_operator_class = [.pythonDecoratedOperator] ∧
     (PythonDecoratorMixin.python pc mo kwargs).map
        TaskDecoratorFactoryCall.kwargs = [kwargs]) ∧
    ((PythonDecoratorMixin.call pc mo kwargs).map
        TaskDecoratorFactoryCall.python_callable = [pc] ∧
     (PythonDecoratorMixin.call pc mo kwargs).map
        TaskDecoratorFactoryCall.multiple_outputs = [mo] ∧
     (PythonDecoratorMixin.call pc mo kwargs).map
        TaskDecoratorFactoryCall.decorated_operator_class = [.pythonDecoratedOperator] ∧
     (PythonDecoratorMixin.call pc mo kwargs).map
        TaskDecoratorFactoryCall.kwargs = [kwargs]) :=
  ⟨⟨rfl, rfl, rfl, rfl⟩, ⟨rfl, rfl, rfl, rfl⟩, ⟨rfl, rfl, rfl, rfl⟩⟩

/-- Claim C7: when the split-result flag is omitted at any entry point, the
declared parameter default (`None`, the unset value) is what is forwarded to
the Factory Dispatch. -/
theorem omitted_split_result_forwards_default {V : Type} (pc : Option V)
    (kwargs : KwBag V) :
    python_task_default_multiple_outputs = none ∧
    (python_task pc python_task_default_multiple_outputs kwargs).map
      TaskDecoratorFactoryCall.multiple_outputs = [none] ∧
    PythonDecoratorMixin.python_default_multiple_outputs = none ∧
    (PythonDecoratorMixin.python pc PythonDecoratorMixin.python_default_multiple_outputs
      kwargs).map TaskDecoratorFactoryCall.multiple_outputs = [none] ∧
    PythonDecoratorMixin.call_default_multiple_outputs = none ∧
    (PythonDecoratorMixin.call pc PythonDecoratorMixin.call_default_multiple_outputs
      kwargs).map TaskDecoratorFactoryCall.multiple_outputs = [none] :=
  ⟨rfl, rfl, rfl, rfl, rfl, rfl⟩

/-- Claim C8: construction never invokes the wrapped callable: its effect
trace consists of the single delegation to the base construction routine on
success and is empty on failure, and every event in it is a delegation. -/
theorem construct_never_invokes_callable {V : Type} (kwargs : KwBag V) :
    (_PythonDecoratedOperator.construct kwargs).2 =
      (((_PythonDecoratedOperator.construct kwargs).1.toOption.map
        fun n => [InitEvent.superInit n.superCall]).getD []) ∧
    (_PythonDecoratedOperator.construct kwargs).2.all InitEvent.isSuperInit = true := by
  cases h1 : lookupKey kwargs "python_callable" with
  | none =>
    simp [_PythonDecoratedOperator.construct, _PythonDecoratedOperator.init, h1,
      Except.toOption]
  | some pc =>
    cases h2 : lookupKey kwargs "op_args" with
    | none =>
      simp [_PythonDecoratedOperator.construct, _PythonDecoratedOperator.init, h1, h2,
        Except.toOption]
    | some oa =>
      cases h3 : lookupKey kwargs "op_kwargs" with
      | none =>
        simp [_PythonDecoratedOperator.construct, _PythonDecoratedOperator.init, h1, h2,
          h3, Except.toOption]
      | some ok =>
        simp [_PythonDecoratedOperator.construct, _PythonDecoratedOperator.init, h1, h2,
          h3, Except.toOption, InitEvent.isSuperInit]

/-- Claim C9: on success each required value reaches the base routine twice:
under its key inside the `kwargs_to_upstream` bundle and again under its own
top-level key in the forwarded bag, which is the full original bag. -/
theorem required_values_forwarded_twice {V : Type} (kwargs : KwBag V)
    (pc oa ok : V)
    (h1 : lookupKey kwargs "python_callable" = some pc)
    (h2 : lookupKey kwargs "op_args" = some oa)
    (h3 : lookupKey kwargs "op_kwargs" = some ok) :
    ∃ n : TaskNode V, (_PythonDecoratedOperator.construct kwargs).1 = .ok n ∧
      lookupKey n.superCall.kwargs_to_upstream "python_callable" = some pc ∧
      lookupKey n.superCall.kwargs "python_callable" = some pc ∧
      lookupKey n.superCall.kwargs_to_upstream "op_args" = some oa ∧
      lookupKey n.superCall.kwargs "op_args" = some oa ∧
      lookupKey n.superCall.kwargs_to_upstream "op_kwargs" = some ok ∧
      lookupKey n.superCall.kwargs "op_kwargs" = some ok := by
  simp [_PythonDecoratedOperator.construct, _PythonDecoratedOperator.init,
    h1, h2, h3, lookupKey]

/-- Witness for C9: on a concrete bag the value of each required key is found
both inside the bundle and at top level in the forwarded bag. -/
theorem required_values_forwarded_twice_witness :
    lookupKey [("python_callable", (4 : Nat)), ("op_args", 5), ("op_kwargs", 6),
      ("do_xcom_push", 0)] "op_args" = some 5 ∧
    (∃ n : TaskNode Nat,
      (_PythonDecoratedOperator.construct
        [("python_callable", (4 : Nat)), ("op_args", 5), ("op_kwargs", 6),
          ("do_xcom_push", 0)]).1 = .ok n ∧
      lookupKey n.superCall.kwargs_to_upstream "python_callable" = some 4 ∧
      lookupKey n.superCall.kwargs "python_callable" = some 4 ∧
      lookupKey n.superCall.kwargs_to_upstream "op_args" = some 5 ∧
      lookupKey n.superCall.kwargs "op_args" = some 5 ∧
      lookupKey n.superCall.kwargs_to_upstream "op_kwargs" = some 6 ∧
      lookupKey n.superCall.kwargs "op_kwargs" = some 6) :=
  ⟨by decide,
   required_values_forwarded_twice _ 4 5 6 (by decide) (by decide) (by decide)⟩

/-- Claim C10: the three metadata declarations are class-level constants that
construction never writes: every successfully constructed node reports
exactly the class-level `template_fields`, `template_fields_renderers` and
`shallow_copy_attrs`. -/
theorem constructed_node_reports_class_declarations {V : Type} (kwargs : KwBag V)
    (n : TaskNode V)
    (h : (_PythonDecoratedOperator.construct kwargs).1 = .ok n) :
    n.template_fields = _PythonDecoratedOperator.template_fields ∧
    n.template_fields_renderers = _PythonDecoratedOperator.template_fields_renderers ∧
    n.shallow_copy_attrs = _PythonDecoratedOperator.shallow_copy_attrs := by
  cases h1 : lookupKey kwargs "python_callable" with
  | none =>
    simp [_PythonDecoratedOperator.construct, _PythonDecoratedOperator.init, h1] at h
  | some pc =>
    cases h2 : lookupKey kwargs "op_args" with
    | none =>
      simp [_PythonDecoratedOperator.construct, _PythonDecoratedOperator.init, h1, h2] at h
    | some oa =>
      cases h3 : lookupKey kwargs "op_kwargs" with
      | none =>
        simp [_PythonDecoratedOperator.construct, _PythonDecoratedOperator.init,
          h1, h2, h3] at h
      | some ok =>
        simp [_PythonDecoratedOperator.construct, _PythonDecoratedOperator.init,
          h1, h2, h3] at h
        subst h
        exact ⟨rfl, rfl, rfl⟩

/-- Witness for C10: a concretely constructed node reports the class-level
declarations. -/
theorem constructed_node_reports_class_declarations_witness :
    (_PythonDecoratedOperator.construct
      [("python_callable", (2 : Nat)), ("op_args", 3), ("op_kwargs", 4)]).1 =
      .ok { template_fields := ["op_args", "op_kwargs"]
            template_fields_renderers := [("op_args", "py"), ("op_kwargs", "py")]
            shallow_copy_attrs := ["python_callable"]
            superCall :=
              ⟨[("python_callable", 2), ("op_args", 3), ("op_kwargs", 4)],
               [("python_callable", 2), ("op_args", 3), ("op_kwargs", 4)]⟩ } ∧
    (({ template_fields := ["op_args", "op_kwargs"]
        template_fields_renderers := [("op_args", "py"), ("op_kwargs", "py")]
        shallow_copy_attrs := ["python_callable"]
        superCall :=
          ⟨[("python_callable", 2), ("op_args", 3), ("op_kwargs", 4)],
           [("python_callable", 2), ("op_args", 3), ("op_kwargs", 4)]⟩ } :
        TaskNode Nat).template_fields = _PythonDecoratedOperator.template_fields ∧
     ({ template_fields := ["op_args", "op_kwargs"]
        template_fields_renderers := [("op_args", "py"), ("op_kwargs", "py")]
        shallow_copy_attrs := ["python_callable"]
        superCall :=
          ⟨[("python_callable", 2), ("op_args", 3), ("op_kwargs", 4)],
           [("python_callable", 2), ("op_args", 3), ("op_kwargs", 4)]⟩ } :
        TaskNode Nat).template_fields_renderers =
          _PythonDecoratedOperator.template_fields_renderers ∧
     ({ template_fields := ["op_args", "op_kwargs"]
        template_fields_renderers := [("op_args", "py"), ("op_kwargs", "py")]
        shallow_copy_attrs := ["python_callable"]
        superCall :=
          ⟨[("python_callable", 2), ("op_args", 3), ("op_kwargs", 4)],
           [("python_callable", 2), ("op_args", 3), ("op_kwargs", 4)]⟩ } :
        TaskNode Nat).shallow_copy_attrs = _PythonDecoratedOperator.shallow_copy_attrs) :=
  ⟨by decide,
   constructed_node_reports_class_declarations
     [("python_callable", (2 : Nat)), ("op_args", 3), ("op_kwargs", 4)]
     { template_fields := ["op_args", "op_kwargs"]
       template_fields_renderers := [("op_args", "py"), ("op_kwargs", "py")]
       shallow_copy_attrs := ["python_callable"]
       superCall :=
         ⟨[("python_callable", 2), ("op_args", 3), ("op_kwargs", 4)],
          [("python_callable", 2), ("op_args", 3), ("op_kwargs", 4)]⟩ }
     (by decide)⟩

end Airflow
